import Mathlib

/-!
Verification of the HealTone payment backend (two source variants:
`src/server.js`, modelled in namespace `ServerJs`, and the Railway variant
`src/unnamed/part_000`, modelled in namespace `Railway`).

Modelling conventions:
* Timestamps (`new Date().toISOString()`) are modelled as a `Nat` parameter
  `now` in milliseconds; `trialEnd.setDate(trialEnd.getDate() + 7)` becomes
  `now + sevenDaysMs`.
* Stripe's `constructEvent` (external library code) is modelled by its outcome:
  webhook routes take an `Except String StripeEvent` — `Except.error` models a
  thrown signature/parse failure, `Except.ok` a verified event.
* The Supabase datastore is a `Store` (list of profile rows plus the
  append-only `payment_history` list).  A `dbOk : Bool` flag injects a
  datastore failure: when `false`, the first datastore operation of the
  request throws.  A handler returning `none` models a thrown exception.
* The outbound Stripe call of the checkout endpoints is modelled by the value
  `oracle : Except String String` (the processor's reply), and each endpoint
  returns the list of session configurations it actually sent to the
  processor, so "no processor call" is `calls = []`.
* JavaScript truthiness on optional strings and `a || b` are modelled by
  `truthyStr` / `jsOrStr` / `jsOrNull` (both `undefined` and `""` are falsy).
-/

/-- One row of the Supabase `profiles` table (the Subscription Record). -/
structure Profile where
  id : String := ""
  subscription_tier : String := ""
  subscription_status : String := ""
  stripe_customer_id : Option String := none
  stripe_subscription_id : Option String := none
  trial_end_date : Option Nat := none
  subscription_start_date : Option Nat := none
  subscription_end_date : Option Nat := none
  last_payment_date : Option Nat := none
deriving DecidableEq, Inhabited, Repr

/-- One row of the Supabase `payment_history` table (the Payment Event Record). -/
structure PaymentRow where
  user_id : String := ""
  stripe_payment_id : String := ""
  amount : Rat := 0
  currency : String := ""
  payment_type : String := ""
  status : String := ""
deriving DecidableEq, Inhabited, Repr

/-- The datastore: profile rows plus the append-only payment history. -/
structure Store where
  profiles : List Profile := []
  payment_history : List PaymentRow := []
deriving DecidableEq, Inhabited, Repr

/-- `session.metadata` as stamped by the checkout session initiator. -/
structure Metadata where
  userId : String := ""
  plan : String := ""
deriving DecidableEq, Inhabited, Repr

/-- The fields of a Stripe checkout session object used by the webhook code. -/
structure CheckoutSession where
  id : String := ""
  mode : String := ""
  metadata : Option Metadata := none
  subscription : Option String := none
  customer : Option String := none
  payment_intent : Option String := none
  client_reference_id : Option String := none
  amount_total : Int := 0
  currency : String := ""
deriving DecidableEq, Inhabited, Repr

/-- The fields of a Stripe subscription object used by the webhook code. -/
structure SubscriptionObj where
  id : String := ""
  status : String := ""
deriving DecidableEq, Inhabited, Repr

/-- The fields of a Stripe invoice object used by the webhook code. -/
structure Invoice where
  subscription : Option String := none
deriving DecidableEq, Inhabited, Repr

/-- A verified webhook event: `event.type` together with `event.data.object`. -/
inductive StripeEvent where
  | checkoutCompleted (s : CheckoutSession)
  | subscriptionUpdated (s : SubscriptionObj)
  | subscriptionDeleted (s : SubscriptionObj)
  | invoicePaymentSucceeded (i : Invoice)
  | invoicePaymentFailed (i : Invoice)
  | other (ty : String)
deriving DecidableEq, Repr

/-- An HTTP response: status code and (abstracted) body. -/
structure Response where
  status : Nat
  body : String
deriving DecidableEq, Inhabited, Repr

/-- JavaScript truthiness of an optional string (`undefined` and `""` are falsy). -/
def truthyStr : Option String → Bool
  | some s => s ≠ ""
  | none => false

/-- JavaScript `a || b` for an optional string `a` and a string default `b`. -/
def jsOrStr : Option String → String → String
  | some s, b => if s = "" then b else s
  | none, b => b

/-- JavaScript `a || null` for an optional string. -/
def jsOrNull : Option String → Option String
  | some s => if s = "" then none else some s
  | none => none

/-- Supabase `.eq(col, v)` where `v` comes from an optional field: an absent
value matches no row (the client serialises `undefined` to a literal that no
column value equals), a present value matches by string equality. -/
def eqSub : Option String → Option String → Bool
  | some s, col => col = some s
  | none, _ => false

/-- Seven days in milliseconds (`trialEnd.setDate(trialEnd.getDate() + 7)`). -/
def sevenDaysMs : Nat := 7 * 24 * 60 * 60 * 1000

/-- Environment configuration used by the checkout endpoints. -/
structure Env where
  clientUrl : String
  weeklyPriceId : String
  lifetimePriceId : String
deriving DecidableEq, Inhabited, Repr

/-- The static plan → price mapping (`prices[plan]`); an unknown or absent
plan yields `none` (JavaScript `undefined`). -/
def prices (env : Env) : Option String → Option String
  | some p =>
      if p = "weekly" then some env.weeklyPriceId
      else if p = "lifetime" then some env.lifetimePriceId
      else none
  | none => none

/-- Request body of `POST /create-checkout-session`. -/
structure CheckoutReq where
  plan : Option String := none
  userId : Option String := none
  email : Option String := none
  skipTrial : Option Bool := none
deriving DecidableEq, Inhabited, Repr

/-- The session configuration sent to `stripe.checkout.sessions.create`. -/
structure SessionConfig where
  customer_email : Option String := none
  client_reference_id : Option String := none
  price : Option String := none
  quantity : Nat := 1
  mode : String := ""
  success_url : String := ""
  cancel_url : String := ""
  trial_period_days : Option Nat := none
  metadata_userId : Option String := none
  metadata_plan : Option String := none
deriving DecidableEq, Inhabited, Repr

namespace ServerJs

/-- `POST /create-checkout-session` of `src/server.js`: no input validation —
the session configuration is always built (with `price = none` for an unknown
plan) and the processor is always called; a processor failure is returned as a
400 with the upstream message.  Returns the response and the list of processor
calls issued. -/
def createCheckoutSession (env : Env) (req : CheckoutReq)
    (oracle : Except String String) : Response × List SessionConfig :=
  let cfg : SessionConfig :=
    { customer_email := req.email
      client_reference_id := req.userId
      price := prices env req.plan
      quantity := 1
      mode := if req.plan = some "lifetime" then "payment" else "subscription"
      success_url := env.clientUrl ++ "/success?session_id={CHECKOUT_SESSION_ID}"
      cancel_url := env.clientUrl ++ "/pricing"
      trial_period_days :=
        if req.plan = some "weekly" ∧ req.skipTrial.getD false = false
        then some 7 else none
      metadata_userId := req.userId
      metadata_plan := req.plan }
  match oracle with
  | Except.ok url => ({ status := 200, body := url }, [cfg])
  | Except.error msg => ({ status := 400, body := msg }, [cfg])

/-- The per-profile update of `handleCheckoutComplete` (the `.update(updateData)
.eq('id', userId)` call): rows whose `id` matches the metadata's `userId` get
tier/status/customer/start-date set, and, when the session carries a
subscription id, also the subscription id and a trial end 7 days out. -/
def checkoutProfileUpdate (now : Nat) (sess : CheckoutSession) (m : Metadata)
    (p : Profile) : Profile :=
  if p.id = m.userId then
    let base :=
      { p with
          subscription_tier := m.plan
          subscription_status :=
            if sess.mode = "subscription" then
              (if sess.subscription.isSome then "trial" else "active")
            else "active"
          stripe_customer_id := sess.customer
          subscription_start_date := some now }
    match sess.subscription with
    | some sub =>
        { base with
            stripe_subscription_id := some sub
            trial_end_date := some (now + sevenDaysMs) }
    | none => base
  else p

/-- The `payment_history` row inserted by `handleCheckoutComplete`. -/
def checkoutPaymentRow (sess : CheckoutSession) (m : Metadata) : PaymentRow :=
  { user_id := m.userId
    stripe_payment_id := jsOrStr sess.payment_intent sess.id
    amount := (sess.amount_total : Rat) / 100
    currency := sess.currency.toUpper
    payment_type := if m.plan = "lifetime" then "one_time" else "subscription"
    status := "succeeded" }

/-- `handleCheckoutComplete` of `src/server.js`.  Accessing
`session.metadata.userId` with absent metadata throws (`none`); a datastore
failure throws before any row changes. -/
def handleCheckoutComplete (dbOk : Bool) (now : Nat) (sess : CheckoutSession)
    (db : Store) : Option Store :=
  match sess.metadata with
  | none => none
  | some m =>
      if dbOk then
        some { profiles := db.profiles.map (checkoutProfileUpdate now sess m)
               payment_history := db.payment_history ++ [checkoutPaymentRow sess m] }
      else none

/-- `subscription.status` mapping of `handleSubscriptionUpdate`:
trialing → trial, active → active, anything else → past_due. -/
def mapStripeStatus (s : String) : String :=
  if s = "trialing" then "trial" else if s = "active" then "active" else "past_due"

/-- The per-row update of `handleSubscriptionUpdate`
(`.update({status, last_payment_date}).eq('stripe_subscription_id', id)`). -/
def subscriptionUpdateRow (now : Nat) (sub : SubscriptionObj) (p : Profile) : Profile :=
  if p.stripe_subscription_id = some sub.id then
    { p with
        subscription_status := mapStripeStatus sub.status
        last_payment_date := some now }
  else p

/-- `handleSubscriptionUpdate` of `src/server.js`: set the mapped status and a
fresh last-payment timestamp on rows matched by `stripe_subscription_id`. -/
def handleSubscriptionUpdate (dbOk : Bool) (now : Nat) (sub : SubscriptionObj)
    (db : Store) : Option Store :=
  if dbOk then
    some { db with profiles := db.profiles.map (subscriptionUpdateRow now sub) }
  else none

/-- The per-row update of `handleSubscriptionDeleted`
(`.update({canceled, free, end}).eq('stripe_subscription_id', id)`). -/
def subscriptionDeletedRow (now : Nat) (sub : SubscriptionObj) (p : Profile) : Profile :=
  if p.stripe_subscription_id = some sub.id then
    { p with
        subscription_status := "canceled"
        subscription_tier := "free"
        subscription_end_date := some now }
  else p

/-- `handleSubscriptionDeleted` of `src/server.js`: set status canceled, tier
free and an end timestamp on rows matched by `stripe_subscription_id`. -/
def handleSubscriptionDeleted (dbOk : Bool) (now : Nat) (sub : SubscriptionObj)
    (db : Store) : Option Store :=
  if dbOk then
    some { db with profiles := db.profiles.map (subscriptionDeletedRow now sub) }
  else none

/-- The per-row update of `handlePaymentSucceeded`
(`.update({active, last_payment_date}).eq('stripe_subscription_id', id)`). -/
def paymentSucceededRow (now : Nat) (inv : Invoice) (p : Profile) : Profile :=
  if (eqSub inv.subscription p.stripe_subscription_id) then
    { p with
        subscription_status := "active"
        last_payment_date := some now }
  else p

/-- `handlePaymentSucceeded` of `src/server.js`: no-op when the invoice has no
(truthy) subscription id, otherwise set status active and a fresh last-payment
timestamp on rows matched by `stripe_subscription_id`. -/
def handlePaymentSucceeded (dbOk : Bool) (now : Nat) (inv : Invoice)
    (db : Store) : Option Store :=
  if truthyStr inv.subscription = false then some db
  else if dbOk then
    some { db with profiles := db.profiles.map (paymentSucceededRow now inv) }
  else none

/-- The per-row update of `handlePaymentFailed`
(`.update({past_due}).eq('stripe_subscription_id', invoice.subscription)`). -/
def paymentFailedRow (inv : Invoice) (p : Profile) : Profile :=
  if (eqSub inv.subscription p.stripe_subscription_id) then
    { p with subscription_status := "past_due" }
  else p

/-- `handlePaymentFailed` of `src/server.js`: set status past_due on rows
matched by `stripe_subscription_id` (no guard on a missing invoice
subscription — an absent value simply matches no row). -/
def handlePaymentFailed (dbOk : Bool) (inv : Invoice)
    (db : Store) : Option Store :=
  if dbOk then
    some { db with profiles := db.profiles.map (paymentFailedRow inv) }
  else none

/-- The `switch (event.type)` dispatch of the `src/server.js` webhook route. -/
def handleEvent (dbOk : Bool) (now : Nat) : StripeEvent → Store → Option Store
  | StripeEvent.checkoutCompleted s, db => handleCheckoutComplete dbOk now s db
  | StripeEvent.subscriptionUpdated s, db => handleSubscriptionUpdate dbOk now s db
  | StripeEvent.subscriptionDeleted s, db => handleSubscriptionDeleted dbOk now s db
  | StripeEvent.invoicePaymentSucceeded i, db => handlePaymentSucceeded dbOk now i db
  | StripeEvent.invoicePaymentFailed i, db => handlePaymentFailed dbOk i db
  | StripeEvent.other _, db => some db

/-- `POST /webhook` of `src/server.js`: a signature/parse failure is a 400
before any handler runs; a handler exception is caught and answered with a
500 (`Webhook handler failed`); otherwise `{received: true}` (200). -/
def webhook (verified : Except String StripeEvent) (dbOk : Bool) (now : Nat)
    (db : Store) : Response × Store :=
  match verified with
  | Except.error msg => ({ status := 400, body := "Webhook Error: " ++ msg }, db)
  | Except.ok e =>
      match handleEvent dbOk now e db with
      | some db2 => ({ status := 200, body := "received" }, db2)
      | none => ({ status := 500, body := "Webhook handler failed" }, db)

end ServerJs

namespace Railway

/-- `POST /create-checkout-session` of the Railway variant
(`src/unnamed/part_000`): missing/empty `plan`, `userId` or `email` → 400; a
plan outside the price map (or an unset price id) → 400 `Unknown plan`, with no
processor call; otherwise the processor is called — with a 7-day trial spread
in whenever the plan is `weekly` (`skipTrial` is never read) and metadata
carrying only the plan — and a processor failure is returned as a 500. -/
def createCheckoutSession (env : Env) (req : CheckoutReq)
    (oracle : Except String String) : Response × List SessionConfig :=
  if truthyStr req.plan = false ∨ truthyStr req.userId = false ∨
      truthyStr req.email = false then
    ({ status := 400, body := "Missing plan, userId, or email" }, [])
  else
    match prices env req.plan with
    | none => ({ status := 400, body := "Unknown plan" }, [])
    | some priceId =>
        if priceId = "" then ({ status := 400, body := "Unknown plan" }, [])
        else
          let cfg : SessionConfig :=
            { customer_email := req.email
              client_reference_id := req.userId
              price := some priceId
              quantity := 1
              mode := if req.plan = some "lifetime" then "payment" else "subscription"
              success_url := env.clientUrl ++ "/success?session_id={CHECKOUT_SESSION_ID}"
              cancel_url := env.clientUrl ++ "/pricing"
              trial_period_days := if req.plan = some "weekly" then some 7 else none
              metadata_userId := none
              metadata_plan := req.plan }
          match oracle with
          | Except.ok url => ({ status := 200, body := url }, [cfg])
          | Except.error msg => ({ status := 500, body := msg }, [cfg])

/-- The inline `checkout.session.completed` reconciliation of the Railway
variant: `userId` from `client_reference_id`, plan from `metadata.plan` with
fallback `weekly` when a subscription id is present else `lifetime`; status is
always `active`; the datastore update is wrapped in its own try/catch, so a
datastore failure leaves the store unchanged and is merely logged. -/
def checkoutApply (dbOk : Bool) (sess : CheckoutSession) (db : Store) : Store :=
  let planFromMeta : Option String := sess.metadata.map Metadata.plan
  let inferredPlan : String := if sess.subscription.isSome then "weekly" else "lifetime"
  let plan : String := jsOrStr planFromMeta inferredPlan
  match sess.client_reference_id with
  | none => db
  | some u =>
      if u = "" then db
      else if plan = "" then db
      else if dbOk then
        { db with profiles := db.profiles.map fun p =>
          if p.id = u then
            { p with
                subscription_tier := plan
                subscription_status := "active"
                stripe_customer_id := sess.customer
                stripe_subscription_id := jsOrNull sess.subscription }
          else p }
      else db

/-- `POST /webhook` of the Railway variant: a signature/parse failure is a
400; only `checkout.session.completed` is handled; every verified event —
including one whose datastore update threw — is acknowledged with
`{received: true}` (200). -/
def webhook (verified : Except String StripeEvent) (dbOk : Bool)
    (db : Store) : Response × Store :=
  match verified with
  | Except.error msg => ({ status := 400, body := "Webhook Error: " ++ msg }, db)
  | Except.ok e =>
      match e with
      | StripeEvent.checkoutCompleted s =>
          ({ status := 200, body := "received" }, checkoutApply dbOk s db)
      | _ => ({ status := 200, body := "received" }, db)

end Railway

/-- One reconciler step of `src/server.js` on a verified event with a healthy
datastore; a thrown handler (absent checkout metadata) leaves the store as it
was, matching the route's catch running before any row changed. -/
def step (e : StripeEvent) (now : Nat) (db : Store) : Store :=
  (ServerJs.handleEvent true now e db).getD db

/-- A sequence of reconciler steps (event, processing time). -/
def run : List (StripeEvent × Nat) → Store → Store
  | [], db => db
  | (e, t) :: rest, db => run rest (step e t db)

/-- The spec's lifetime invariant, exactly as stated:
`tier = lifetime` implies `status ∈ {active, canceled}`. -/
def OrigInv (p : Profile) : Prop :=
  p.subscription_tier = "lifetime" →
    p.subscription_status = "active" ∨ p.subscription_status = "canceled"

/-- The strengthened per-row invariant that is actually inductive: a lifetime
row is active or canceled and stores no subscription id. -/
def LifetimeInv (p : Profile) : Prop :=
  p.subscription_tier = "lifetime" →
    (p.subscription_status = "active" ∨ p.subscription_status = "canceled") ∧
      p.stripe_subscription_id = none

/-- The strengthened invariant over the whole store. -/
def StoreInv (db : Store) : Prop := ∀ p ∈ db.profiles, LifetimeInv p

/-- Well-formedness of an event relative to the current store: a completed
checkout whose metadata says `lifetime` carries no subscription id (as sessions
created by the initiator do: lifetime sessions use one-time payment mode) and
is addressed to rows that store no subscription id.  All other events are
unconstrained. -/
def WfEvent : StripeEvent → Store → Prop
  | StripeEvent.checkoutCompleted s, db =>
      ∀ m, s.metadata = some m → m.plan = "lifetime" →
        s.subscription = none ∧
          ∀ p ∈ db.profiles, p.id = m.userId → p.stripe_subscription_id = none
  | _, _ => True

/-- Well-formedness of a whole trace, each event judged at the store it hits. -/
def WfTrace : List (StripeEvent × Nat) → Store → Prop
  | [], _ => True
  | (e, t) :: rest, db => WfEvent e db ∧ WfTrace rest (step e t db)

/-- Whether the `src/server.js` webhook dispatch reaches a datastore operation
for the given event: a completed checkout needs metadata to survive to the
write, a payment-succeeded invoice without a truthy subscription id returns
before writing, and unhandled event types perform no write. -/
def attemptsWrite : StripeEvent → Bool
  | StripeEvent.checkoutCompleted s => s.metadata.isSome
  | StripeEvent.subscriptionUpdated _ => true
  | StripeEvent.subscriptionDeleted _ => true
  | StripeEvent.invoicePaymentSucceeded i => truthyStr i.subscription
  | StripeEvent.invoicePaymentFailed _ => true
  | StripeEvent.other _ => false

instance (p : Profile) : Decidable (OrigInv p) := by
  unfold OrigInv; infer_instance

instance (p : Profile) : Decidable (LifetimeInv p) := by
  unfold LifetimeInv; infer_instance

instance (db : Store) : Decidable (StoreInv db) := by
  unfold StoreInv; infer_instance

/-- A fixed environment for concrete evaluations. -/
def envW : Env :=
  { clientUrl := "https://app.example"
    weeklyPriceId := "price_w"
    lifetimePriceId := "price_l" }

/-- A free-tier profile row for user `u1`. -/
def profFree : Profile :=
  { id := "u1", subscription_tier := "free", subscription_status := "none" }

/-- A weekly subscriber row for user `u2` on subscription `sub_1`. -/
def profWeekly : Profile :=
  { id := "u2", subscription_tier := "weekly", subscription_status := "active"
    stripe_customer_id := some "cus_2"
    stripe_subscription_id := some "sub_1" }

/-- A lifetime row that also stores a subscription id `sub_1` — it satisfies
the spec's invariant as stated (`tier = lifetime → status ∈ {active, canceled}`). -/
def profLifetimeSub : Profile :=
  { id := "u3", subscription_tier := "lifetime", subscription_status := "active"
    stripe_customer_id := some "cus_3"
    stripe_subscription_id := some "sub_1" }

/-- A store holding just the free profile. -/
def dbOneFree : Store := { profiles := [profFree] }

/-- A store holding just the weekly subscriber. -/
def dbWeekly : Store := { profiles := [profWeekly] }

/-- A store holding just the lifetime-with-subscription-id profile. -/
def dbLifetimeSub : Store := { profiles := [profLifetimeSub] }

/-- A completed lifetime checkout session: metadata present, no subscription. -/
def sessLifetime : CheckoutSession :=
  { id := "cs_1", mode := "payment"
    metadata := some { userId := "u1", plan := "lifetime" }
    subscription := none
    customer := some "cus_1"
    payment_intent := some "pi_1"
    client_reference_id := some "u1"
    amount_total := 19900, currency := "usd" }

/-- A completed checkout session with absent metadata but a subscription id. -/
def sessNoMeta : CheckoutSession :=
  { id := "cs_2", mode := "subscription"
    metadata := none
    subscription := some "sub_9"
    customer := some "cus_1"
    client_reference_id := some "u1"
    amount_total := 500, currency := "usd" }

/-- A completed weekly checkout session with metadata and a subscription id. -/
def sessWeeklyMeta : CheckoutSession :=
  { id := "cs_3", mode := "subscription"
    metadata := some { userId := "u1", plan := "weekly" }
    subscription := some "sub_2"
    customer := some "cus_1"
    client_reference_id := some "u1"
    amount_total := 500, currency := "usd" }

/-- A `customer.subscription.updated` payload with processor status `active`. -/
def subEvActive : SubscriptionObj := { id := "sub_1", status := "active" }

/-- A `customer.subscription.deleted` payload for subscription `sub_1`. -/
def subEvDeleted : SubscriptionObj := { id := "sub_1", status := "canceled" }

/-- An invoice payload referencing subscription `sub_1`. -/
def invFail1 : Invoice := { subscription := some "sub_1" }

/-- A checkout request with a plan outside `{weekly, lifetime}`. -/
def reqBadPlan : CheckoutReq :=
  { plan := some "monthly", userId := some "u1", email := some "a@b.c" }

/-- A weekly checkout request with `skipTrial` set to true. -/
def reqWeeklySkip : CheckoutReq :=
  { plan := some "weekly", userId := some "u1", email := some "a@b.c"
    skipTrial := some true }

/-- Mapping an idempotent function over a list twice equals mapping it once. -/
theorem map_idem {α : Type} (f : α → α) (hf : ∀ a, f (f a) = f a) :
    ∀ l : List α, (l.map f).map f = l.map f
  | [] => rfl
  | a :: l => by simp only [List.map_cons, hf a, map_idem f hf l]

/-- C1: a webhook request whose signature verification fails (or whose payload
is malformed, both surfacing as a thrown `constructEvent`) is answered 400 by
both source variants, and the datastore is left exactly as it was: no
subscription-record update and no payment-event insert. -/
theorem webhook_bad_signature_rejected_no_writes (msg : String) (dbOk : Bool)
    (now : Nat) (db : Store) :
    ServerJs.webhook (Except.error msg) dbOk now db
      = ({ status := 400, body := "Webhook Error: " ++ msg }, db) ∧
    Railway.webhook (Except.error msg) dbOk db
      = ({ status := 400, body := "Webhook Error: " ++ msg }, db) :=
  ⟨rfl, rfl⟩

/-- C4: evaluating `src/server.js` at the failing input — the same completed
lifetime checkout event delivered twice into an empty payment history — shows
the unconditional `payment_history` insert runs on each delivery, leaving two
Payment Event Records where the claim requires at most one. -/
theorem duplicate_checkout_event_duplicates_payment_row :
    ((ServerJs.webhook (Except.ok (StripeEvent.checkoutCompleted sessLifetime)) true 0
        (ServerJs.webhook (Except.ok (StripeEvent.checkoutCompleted sessLifetime)) true 0
          dbOneFree).2).2).payment_history.length = 2 := by
  rfl

/-- C2 counterexample: on a checkout session with absent metadata and a
subscription id, `src/server.js` does not fall back to `plan = weekly` —
`session.metadata.userId` throws, the route answers 500, and no record gets
tier `weekly`. -/
theorem checkout_missing_metadata_no_fallback :
    ServerJs.webhook (Except.ok (StripeEvent.checkoutCompleted sessNoMeta)) true 0 dbOneFree
      = ({ status := 500, body := "Webhook handler failed" }, dbOneFree) ∧
    ((ServerJs.webhook (Except.ok (StripeEvent.checkoutCompleted sessNoMeta)) true 0
        dbOneFree).2.profiles.getD 0 default).subscription_tier ≠ "weekly" := by
  exact ⟨rfl, by decide⟩

/-- C5 counterexample: redelivering the same `customer.subscription.updated`
event at a later wall-clock time does not leave the record in the same state —
`last_payment_date` is stamped from the processing clock, not from the event. -/
theorem subscription_update_redelivery_time_dependent :
    ServerJs.handleSubscriptionUpdate true 1 subEvActive
        ((ServerJs.handleSubscriptionUpdate true 0 subEvActive dbWeekly).getD dbWeekly)
      ≠ ServerJs.handleSubscriptionUpdate true 0 subEvActive dbWeekly := by
  decide

/-- C6 counterexample: in the Railway variant a completed-checkout event whose
datastore update throws is still acknowledged with 200 `{received: true}` —
the failure is swallowed, not surfaced as a 5xx. -/
theorem railway_db_failure_acknowledged_success :
    Railway.webhook (Except.ok (StripeEvent.checkoutCompleted sessWeeklyMeta)) false dbOneFree
      = ({ status := 200, body := "received" }, dbOneFree) := by
  rfl

/-- C7 counterexample: for `plan = "monthly"` (not in `{weekly, lifetime}`),
`src/server.js` performs no validation and does issue a processor call — with
an undefined price id — rather than rejecting before the call. -/
theorem serverjs_unknown_plan_calls_processor :
    ((ServerJs.createCheckoutSession envW reqBadPlan (Except.error "No such price")).2).length
      = 1 ∧
    (((ServerJs.createCheckoutSession envW reqBadPlan
        (Except.error "No such price")).2).getD 0 default).price = none := by
  exact ⟨rfl, rfl⟩

/-- C8 counterexample: in the Railway variant a weekly checkout with
`skipTrial = true` still attaches the 7-day trial — `skipTrial` is never read. -/
theorem railway_weekly_skip_trial_still_attaches :
    (((Railway.createCheckoutSession envW reqWeeklySkip (Except.ok "https://cs")).2).getD 0
        default).trial_period_days = some 7 := by
  rfl

/-- Mapping a default-fixing function over a list commutes with `getD`. -/
theorem getD_map_fix {α : Type} [Inhabited α] (f : α → α) (hf : f default = default) :
    ∀ (l : List α) (n : Nat), (l.map f).getD n default = f (l.getD n default)
  | [], n => by simp [hf, List.getD]
  | _ :: _, 0 => rfl
  | _ :: l, n + 1 => getD_map_fix f hf l n

/-- C10 counterexample: a store whose only row satisfies the invariant exactly
as the spec states it (tier lifetime, status active — but with a stored
subscription id) is driven out of the invariant by a single
`invoice.payment_failed` event matching that subscription id: the row becomes
tier lifetime with status past_due. -/
theorem lifetime_invariant_not_inductive :
    (∀ p ∈ dbLifetimeSub.profiles, OrigInv p) ∧
    ¬ (∀ p ∈ (run [(StripeEvent.invoicePaymentFailed invFail1, 1)] dbLifetimeSub).profiles,
        OrigInv p) := by
  decide

/-- C9 amended: on a `customer.subscription.deleted` event for subscription id
`S`, the `src/server.js` reconciler (`handleSubscriptionDeleted`) succeeds,
leaves the payment history and the row count unchanged, and row-by-row: a row
whose `stripe_subscription_id` is `S` gets status canceled, tier free, and an
end timestamp while every other field is preserved; a row with a different (or
no) subscription id is completely unchanged.  The Railway variant handles only
completed checkouts: it acknowledges the deleted event with 200
`{received: true}` and leaves the whole store unchanged (see the C9
counterexample). -/
theorem subscription_deleted_updates_only_matching (now : Nat)
    (ev : SubscriptionObj) (db : Store) (i : Nat) :
    (ServerJs.handleSubscriptionDeleted true now ev db).isSome = true ∧
    ((ServerJs.handleSubscriptionDeleted true now ev db).getD db).payment_history
      = db.payment_history ∧
    ((ServerJs.handleSubscriptionDeleted true now ev db).getD db).profiles.length
      = db.profiles.length ∧
    (if (db.profiles.getD i default).stripe_subscription_id = some ev.id then
        (((ServerJs.handleSubscriptionDeleted true now ev db).getD db).profiles.getD i
              default).subscription_status = "canceled" ∧
        (((ServerJs.handleSubscriptionDeleted true now ev db).getD db).profiles.getD i
              default).subscription_tier = "free" ∧
        (((ServerJs.handleSubscriptionDeleted true now ev db).getD db).profiles.getD i
              default).subscription_end_date = some now ∧
        (((ServerJs.handleSubscriptionDeleted true now ev db).getD db).profiles.getD i
              default).id = (db.profiles.getD i default).id ∧
        (((ServerJs.handleSubscriptionDeleted true now ev db).getD db).profiles.getD i
              default).stripe_customer_id
          = (db.profiles.getD i default).stripe_customer_id ∧
        (((ServerJs.handleSubscriptionDeleted true now ev db).getD db).profiles.getD i
              default).stripe_subscription_id
          = (db.profiles.getD i default).stripe_subscription_id ∧
        (((ServerJs.handleSubscriptionDeleted true now ev db).getD db).profiles.getD i
              default).trial_end_date = (db.profiles.getD i default).trial_end_date ∧
        (((ServerJs.handleSubscriptionDeleted true now ev db).getD db).profiles.getD i
              default).subscription_start_date
          = (db.profiles.getD i default).subscription_start_date ∧
        (((ServerJs.handleSubscriptionDeleted true now ev db).getD db).profiles.getD i
              default).last_payment_date = (db.profiles.getD i default).last_payment_date
      else
        ((ServerJs.handleSubscriptionDeleted true now ev db).getD db).profiles.getD i
            default
          = db.profiles.getD i default) ∧
    (∀ dbOk : Bool,
      Railway.webhook (Except.ok (StripeEvent.subscriptionDeleted ev)) dbOk db
        = ({ status := 200, body := "received" }, db)) := by
  have hgd : ((ServerJs.handleSubscriptionDeleted true now ev db).getD db)
      = { db with profiles := db.profiles.map (ServerJs.subscriptionDeletedRow now ev) } :=
    rfl
  have hfix : ServerJs.subscriptionDeletedRow now ev default = default := rfl
  refine ⟨rfl, rfl, ?_, ?_, fun dbOk => rfl⟩
  · rw [hgd]
    exact List.length_map _ _
  · rw [hgd]
    by_cases h : (db.profiles.getD i default).stripe_subscription_id = some ev.id
    · rw [if_pos h]
      have hp : (db.profiles.map (ServerJs.subscriptionDeletedRow now ev)).getD i default
          = ServerJs.subscriptionDeletedRow now ev (db.profiles.getD i default) :=
        getD_map_fix _ hfix db.profiles i
      rw [hp]
      unfold ServerJs.subscriptionDeletedRow
      rw [if_pos h]
      exact ⟨rfl, rfl, rfl, rfl, rfl, rfl, rfl, rfl, rfl⟩
    · rw [if_neg h]
      have hp : (db.profiles.map (ServerJs.subscriptionDeletedRow now ev)).getD i default
          = ServerJs.subscriptionDeletedRow now ev (db.profiles.getD i default) :=
        getD_map_fix _ hfix db.profiles i
      rw [hp]
      unfold ServerJs.subscriptionDeletedRow
      rw [if_neg h]

/-- C9 counterexample: the Railway variant handles only completed checkouts —
a verified `customer.subscription.deleted` event for `sub_1` is acknowledged
200 `{received: true}` while the record whose `stripe_subscription_id` is
`sub_1` keeps status `active` and tier `weekly` and gains no end timestamp: it
does not transition to canceled/free. -/
theorem railway_subscription_deleted_event_noop :
    Railway.webhook (Except.ok (StripeEvent.subscriptionDeleted subEvDeleted)) true dbWeekly
      = ({ status := 200, body := "received" }, dbWeekly) ∧
    (dbWeekly.profiles.getD 0 default).stripe_subscription_id = some "sub_1" ∧
    (dbWeekly.profiles.getD 0 default).subscription_status ≠ "canceled" ∧
    (dbWeekly.profiles.getD 0 default).subscription_tier ≠ "free" ∧
    (dbWeekly.profiles.getD 0 default).subscription_end_date = none := by
  exact ⟨rfl, rfl, by decide, by decide, rfl⟩

/-- C5 amended: each subscription-record mutation of the `src/server.js`
reconciler (subscription updated, subscription deleted, invoice payment
succeeded, invoice payment failed) is idempotent at a fixed processing time —
the enum and id fields it writes are derived solely from the incoming event,
but the `last_payment_date` / `subscription_end_date` timestamps are stamped
from the wall clock, so only redelivery at the same clock reading reproduces
the identical record. -/
theorem handlers_idempotent_at_fixed_time (now : Nat) (su : SubscriptionObj)
    (inv : Invoice) (db : Store) :
    ServerJs.handleSubscriptionUpdate true now su
        ((ServerJs.handleSubscriptionUpdate true now su db).getD db)
      = ServerJs.handleSubscriptionUpdate true now su db ∧
    ServerJs.handleSubscriptionDeleted true now su
        ((ServerJs.handleSubscriptionDeleted true now su db).getD db)
      = ServerJs.handleSubscriptionDeleted true now su db ∧
    ServerJs.handlePaymentSucceeded true now inv
        ((ServerJs.handlePaymentSucceeded true now inv db).getD db)
      = ServerJs.handlePaymentSucceeded true now inv db ∧
    ServerJs.handlePaymentFailed true inv
        ((ServerJs.handlePaymentFailed true inv db).getD db)
      = ServerJs.handlePaymentFailed true inv db := by
  have hU : ∀ p, ServerJs.subscriptionUpdateRow now su
      (ServerJs.subscriptionUpdateRow now su p) = ServerJs.subscriptionUpdateRow now su p := by
    intro p
    unfold ServerJs.subscriptionUpdateRow
    by_cases h : p.stripe_subscription_id = some su.id <;> simp [h]
  have hD : ∀ p, ServerJs.subscriptionDeletedRow now su
      (ServerJs.subscriptionDeletedRow now su p) = ServerJs.subscriptionDeletedRow now su p := by
    intro p
    unfold ServerJs.subscriptionDeletedRow
    by_cases h : p.stripe_subscription_id = some su.id <;> simp [h]
  have hS : ∀ p, ServerJs.paymentSucceededRow now inv
      (ServerJs.paymentSucceededRow now inv p) = ServerJs.paymentSucceededRow now inv p := by
    intro p
    unfold ServerJs.paymentSucceededRow
    by_cases h : eqSub inv.subscription p.stripe_subscription_id = true <;> simp [h]
  have hF : ∀ p, ServerJs.paymentFailedRow inv
      (ServerJs.paymentFailedRow inv p) = ServerJs.paymentFailedRow inv p := by
    intro p
    unfold ServerJs.paymentFailedRow
    by_cases h : eqSub inv.subscription p.stripe_subscription_id = true <;> simp [h]
  refine ⟨?_, ?_, ?_, ?_⟩
  · show (some { db with profiles :=
        ((db.profiles.map (ServerJs.subscriptionUpdateRow now su)).map
          (ServerJs.subscriptionUpdateRow now su)) } : Option Store) = _
    rw [map_idem _ hU]
    rfl
  · show (some { db with profiles :=
        ((db.profiles.map (ServerJs.subscriptionDeletedRow now su)).map
          (ServerJs.subscriptionDeletedRow now su)) } : Option Store) = _
    rw [map_idem _ hD]
    rfl
  · by_cases hg : truthyStr inv.subscription = false
    · simp [ServerJs.handlePaymentSucceeded, hg]
    · have hrw : ServerJs.handlePaymentSucceeded true now inv db
          = some { db with profiles :=
              (db.profiles.map (ServerJs.paymentSucceededRow now inv)) } := by
        unfold ServerJs.handlePaymentSucceeded
        rw [if_neg hg]
        rfl
      have hrw2 : ServerJs.handlePaymentSucceeded true now inv
          { db with profiles := (db.profiles.map (ServerJs.paymentSucceededRow now inv)) }
          = some { db with profiles :=
              ((db.profiles.map (ServerJs.paymentSucceededRow now inv)).map
                (ServerJs.paymentSucceededRow now inv)) } := by
        unfold ServerJs.handlePaymentSucceeded
        rw [if_neg hg]
        rfl
      rw [hrw, Option.getD_some, hrw2, map_idem _ hS]
  · show (some { db with profiles :=
        ((db.profiles.map (ServerJs.paymentFailedRow inv)).map
          (ServerJs.paymentFailedRow inv)) } : Option Store) = _
    rw [map_idem _ hF]
    rfl

/-- C6 amended: in the `src/server.js` variant, a verified event whose
dispatch reaches a datastore operation is answered 500 (`Webhook handler
failed`) when that operation throws — the failure is surfaced for redelivery,
and the store is left unchanged; the Railway variant instead swallows the
failure (see the C6 counterexample). -/
theorem serverjs_db_failure_returns_500 (e : StripeEvent) (now : Nat) (db : Store)
    (h : attemptsWrite e = true) :
    ServerJs.webhook (Except.ok e) false now db
      = ({ status := 500, body := "Webhook handler failed" }, db) := by
  cases e with
  | checkoutCompleted s =>
      simp only [attemptsWrite, Option.isSome_iff_exists] at h
      obtain ⟨m, hm⟩ := h
      simp [ServerJs.webhook, ServerJs.handleEvent, ServerJs.handleCheckoutComplete, hm]
  | subscriptionUpdated s =>
      simp [ServerJs.webhook, ServerJs.handleEvent, ServerJs.handleSubscriptionUpdate]
  | subscriptionDeleted s =>
      simp [ServerJs.webhook, ServerJs.handleEvent, ServerJs.handleSubscriptionDeleted]
  | invoicePaymentSucceeded i =>
      simp only [attemptsWrite] at h
      simp [ServerJs.webhook, ServerJs.handleEvent, ServerJs.handlePaymentSucceeded, h]
  | invoicePaymentFailed i =>
      simp [ServerJs.webhook, ServerJs.handleEvent, ServerJs.handlePaymentFailed]
  | other ty =>
      simp [attemptsWrite] at h

/-- Witness for the C6 amended theorem at a concrete event and store. -/
theorem serverjs_db_failure_returns_500_witness :
    ServerJs.webhook (Except.ok (StripeEvent.invoicePaymentFailed invFail1)) false 0 dbOneFree
      = ({ status := 500, body := "Webhook handler failed" }, dbOneFree) :=
  serverjs_db_failure_returns_500 (StripeEvent.invoicePaymentFailed invFail1) 0 dbOneFree rfl

/-- Mapping over a list commutes with `getD` at in-range indices. -/
theorem getD_map_lt {α : Type} [Inhabited α] (f : α → α) :
    ∀ (l : List α) (n : Nat), n < l.length → (l.map f).getD n default = f (l.getD n default)
  | _ :: _, 0, _ => rfl
  | _ :: l, n + 1, h => getD_map_lt f l n (Nat.lt_of_succ_lt_succ h)
  | [], n, h => absurd h (Nat.not_lt_zero n)

/-- The row-level effect of `checkoutProfileUpdate`: the matching row gets
tier/status/customer/start set (plus subscription id and trial end when a
subscription id is present); any other row is unchanged. -/
theorem checkoutProfileUpdate_spec (now : Nat) (sess : CheckoutSession)
    (m : Metadata) (q : Profile) :
    if q.id = m.userId then
        (ServerJs.checkoutProfileUpdate now sess m q).subscription_tier = m.plan ∧
        (ServerJs.checkoutProfileUpdate now sess m q).subscription_status
          = (if sess.mode = "subscription" then
              (if sess.subscription.isSome then "trial" else "active")
            else "active") ∧
        (ServerJs.checkoutProfileUpdate now sess m q).stripe_customer_id = sess.customer ∧
        (ServerJs.checkoutProfileUpdate now sess m q).subscription_start_date = some now ∧
        (ServerJs.checkoutProfileUpdate now sess m q).stripe_subscription_id
          = (match sess.subscription with
             | some sub => some sub
             | none => q.stripe_subscription_id) ∧
        (ServerJs.checkoutProfileUpdate now sess m q).trial_end_date
          = (match sess.subscription with
             | some _ => some (now + sevenDaysMs)
             | none => q.trial_end_date)
      else ServerJs.checkoutProfileUpdate now sess m q = q := by
  by_cases h : q.id = m.userId
  · rw [if_pos h]
    cases hsub : sess.subscription with
    | none => simp [ServerJs.checkoutProfileUpdate, h, hsub]
    | some sub => simp [ServerJs.checkoutProfileUpdate, h, hsub]
  · rw [if_neg h]
    simp [ServerJs.checkoutProfileUpdate, h]

/-- C2 amended: for a session whose metadata is present,
`handleCheckoutComplete` succeeds and row-by-row: the row matching
`metadata.userId` gets tier `metadata.plan`, status `trial` exactly when the
session mode is `subscription` and a subscription id is present (else
`active`), the processor customer id and a start timestamp; when a
subscription id is present, the subscription id and a trial end 7 days out
are stored, otherwise those fields keep their prior values; every other row
is unchanged, and exactly one payment row is appended.  (There is no
metadata-absent fallback in `src/server.js` — see the C2 counterexample.) -/
theorem checkout_complete_characterization (now : Nat) (sess : CheckoutSession)
    (db : Store) (m : Metadata) (i : Nat) (hm : sess.metadata = some m)
    (hi : i < db.profiles.length) :
    (ServerJs.handleCheckoutComplete true now sess db).isSome = true ∧
    ((ServerJs.handleCheckoutComplete true now sess db).getD db).payment_history
      = db.payment_history ++ [ServerJs.checkoutPaymentRow sess m] ∧
    (if (db.profiles.getD i default).id = m.userId then
        (((ServerJs.handleCheckoutComplete true now sess db).getD db).profiles.getD i
              default).subscription_tier = m.plan ∧
        (((ServerJs.handleCheckoutComplete true now sess db).getD db).profiles.getD i
              default).subscription_status
          = (if sess.mode = "subscription" then
              (if sess.subscription.isSome then "trial" else "active")
            else "active") ∧
        (((ServerJs.handleCheckoutComplete true now sess db).getD db).profiles.getD i
              default).stripe_customer_id = sess.customer ∧
        (((ServerJs.handleCheckoutComplete true now sess db).getD db).profiles.getD i
              default).subscription_start_date = some now ∧
        (((ServerJs.handleCheckoutComplete true now sess db).getD db).profiles.getD i
              default).stripe_subscription_id
          = (match sess.subscription with
             | some sub => some sub
             | none => (db.profiles.getD i default).stripe_subscription_id) ∧
        (((ServerJs.handleCheckoutComplete true now sess db).getD db).profiles.getD i
              default).trial_end_date
          = (match sess.subscription with
             | some _ => some (now + sevenDaysMs)
             | none => (db.profiles.getD i default).trial_end_date)
      else
        ((ServerJs.handleCheckoutComplete true now sess db).getD db).profiles.getD i default
          = db.profiles.getD i default) := by
  have hgd : ((ServerJs.handleCheckoutComplete true now sess db).getD db)
      = { profiles := db.profiles.map (ServerJs.checkoutProfileUpdate now sess m)
          payment_history := db.payment_history ++ [ServerJs.checkoutPaymentRow sess m] } := by
    unfold ServerJs.handleCheckoutComplete
    rw [hm]
    rfl
  have hsome : (ServerJs.handleCheckoutComplete true now sess db).isSome = true := by
    unfold ServerJs.handleCheckoutComplete
    rw [hm]
    rfl
  have hp : ((ServerJs.handleCheckoutComplete true now sess db).getD db).profiles.getD i default
      = ServerJs.checkoutProfileUpdate now sess m (db.profiles.getD i default) := by
    rw [hgd]
    exact getD_map_lt _ db.profiles i hi
  refine ⟨hsome, by rw [hgd], ?_⟩
  rw [hp]
  exact checkoutProfileUpdate_spec now sess m (db.profiles.getD i default)

/-- Witness for the C2 amended theorem at a concrete weekly-checkout event. -/
theorem checkout_complete_characterization_witness :
    (ServerJs.handleCheckoutComplete true 0 sessWeeklyMeta dbOneFree).isSome = true :=
  (checkout_complete_characterization 0 sessWeeklyMeta dbOneFree
    { userId := "u1", plan := "weekly" } 0 rfl (by decide)).1

/-- The Railway checkout reconciliation never writes the payment history. -/
theorem railway_checkout_keeps_payment_history (dbOk : Bool) (s : CheckoutSession)
    (db : Store) :
    (Railway.checkoutApply dbOk s db).payment_history = db.payment_history := by
  have hform : ∀ (u plan : String),
      ((if u = "" then db
        else if plan = "" then db
        else if dbOk then
          { db with profiles := db.profiles.map fun p =>
            if p.id = u then
              { p with
                  subscription_tier := plan
                  subscription_status := "active"
                  stripe_customer_id := s.customer
                  stripe_subscription_id := jsOrNull s.subscription }
            else p }
        else db) : Store).payment_history = db.payment_history := by
    intro u plan
    by_cases h1 : u = ""
    · rw [if_pos h1]
    · rw [if_neg h1]
      by_cases h2 : plan = ""
      · rw [if_pos h2]
      · rw [if_neg h2]
        cases dbOk <;> rfl
  cases hcr : s.client_reference_id with
  | none =>
      unfold Railway.checkoutApply
      rw [hcr]
  | some u =>
      unfold Railway.checkoutApply
      rw [hcr]
      exact hform u (jsOrStr (s.metadata.map Metadata.plan)
        (if s.subscription.isSome then "weekly" else "lifetime"))

/-- C3 amended: in `src/server.js`, a verified `checkout.session.completed`
event whose metadata carries `plan = "lifetime"` and which has no
`subscription` field is acknowledged 200; the record matching the metadata
userId gets status `active` and tier `lifetime` (any other record is
untouched), and exactly one Payment Event Record is appended, with
`payment_type = "one_time"`.  The Railway variant has no payment logging: its
checkout reconciliation leaves the payment history unchanged — zero Payment
Event Records are inserted (see the C3 counterexample). -/
theorem lifetime_checkout_one_time_payment_row (now : Nat) (m : Metadata)
    (sess : CheckoutSession) (db : Store) (i : Nat)
    (hm : sess.metadata = some m) (hplan : m.plan = "lifetime")
    (hs : sess.subscription = none) (hi : i < db.profiles.length) :
    (ServerJs.webhook (Except.ok (StripeEvent.checkoutCompleted sess)) true now db).1
      = { status := 200, body := "received" } ∧
    (ServerJs.webhook (Except.ok (StripeEvent.checkoutCompleted sess)) true now
        db).2.payment_history
      = db.payment_history ++ [ServerJs.checkoutPaymentRow sess m] ∧
    (ServerJs.checkoutPaymentRow sess m).payment_type = "one_time" ∧
    (if (db.profiles.getD i default).id = m.userId then
        ((ServerJs.webhook (Except.ok (StripeEvent.checkoutCompleted sess)) true now
              db).2.profiles.getD i default).subscription_status = "active" ∧
        ((ServerJs.webhook (Except.ok (StripeEvent.checkoutCompleted sess)) true now
              db).2.profiles.getD i default).subscription_tier = "lifetime"
      else
        (ServerJs.webhook (Except.ok (StripeEvent.checkoutCompleted sess)) true now
            db).2.profiles.getD i default
          = db.profiles.getD i default) ∧
    (∀ dbOk : Bool,
      (Railway.webhook (Except.ok (StripeEvent.checkoutCompleted sess)) dbOk
          db).2.payment_history = db.payment_history) := by
  have hw : ServerJs.webhook (Except.ok (StripeEvent.checkoutCompleted sess)) true now db
      = ({ status := 200, body := "received" },
         { profiles := db.profiles.map (ServerJs.checkoutProfileUpdate now sess m)
           payment_history := db.payment_history ++ [ServerJs.checkoutPaymentRow sess m] }) := by
    show ((match ServerJs.handleCheckoutComplete true now sess db with
      | some db2 => ({ status := 200, body := "received" }, db2)
      | none => ({ status := 500, body := "Webhook handler failed" }, db)
        : Response × Store)) = _
    unfold ServerJs.handleCheckoutComplete
    rw [hm]
    rfl
  have hp : (ServerJs.webhook (Except.ok (StripeEvent.checkoutCompleted sess)) true now
        db).2.profiles.getD i default
      = ServerJs.checkoutProfileUpdate now sess m (db.profiles.getD i default) := by
    rw [hw]
    exact getD_map_lt _ db.profiles i hi
  have hrow : (ServerJs.checkoutPaymentRow sess m).payment_type = "one_time" := by
    unfold ServerJs.checkoutPaymentRow
    rw [hplan]
    rfl
  have hq := checkoutProfileUpdate_spec now sess m (db.profiles.getD i default)
  refine ⟨by rw [hw], by rw [hw], hrow, ?_,
    fun dbOk => railway_checkout_keeps_payment_history dbOk sess db⟩
  rw [hp]
  by_cases h : (db.profiles.getD i default).id = m.userId
  · rw [if_pos h]
    rw [if_pos h] at hq
    constructor
    · have hstat := hq.2.1
      rw [hs] at hstat
      simpa using hstat
    · have htier := hq.1
      rw [hplan] at htier
      exact htier
  · rw [if_neg h]
    rw [if_neg h] at hq
    exact hq

/-- Witness for C3 at a concrete lifetime checkout event and store. -/
theorem lifetime_checkout_one_time_payment_row_witness :
    (ServerJs.webhook (Except.ok (StripeEvent.checkoutCompleted sessLifetime)) true 0
        dbOneFree).1 = { status := 200, body := "received" } ∧
    (ServerJs.checkoutPaymentRow sessLifetime
        { userId := "u1", plan := "lifetime" }).payment_type = "one_time" :=
  ⟨(lifetime_checkout_one_time_payment_row 0 { userId := "u1", plan := "lifetime" }
      sessLifetime dbOneFree 0 rfl rfl rfl (by decide)).1,
   (lifetime_checkout_one_time_payment_row 0 { userId := "u1", plan := "lifetime" }
      sessLifetime dbOneFree 0 rfl rfl rfl (by decide)).2.2.1⟩

/-- C3 counterexample: the Railway variant processes a verified lifetime
checkout (the matching row does get tier `lifetime` and status `active`) but
has no payment logging at all — afterwards the payment history is still
empty, not the exactly-one `one_time` Payment Event Record the claim
requires. -/
theorem railway_lifetime_checkout_inserts_no_payment_row :
    (Railway.webhook (Except.ok (StripeEvent.checkoutCompleted sessLifetime)) true
        dbOneFree).1 = { status := 200, body := "received" } ∧
    ((Railway.webhook (Except.ok (StripeEvent.checkoutCompleted sessLifetime)) true
        dbOneFree).2.profiles.getD 0 default).subscription_tier = "lifetime" ∧
    ((Railway.webhook (Except.ok (StripeEvent.checkoutCompleted sessLifetime)) true
        dbOneFree).2.profiles.getD 0 default).subscription_status = "active" ∧
    (Railway.webhook (Except.ok (StripeEvent.checkoutCompleted sessLifetime)) true
        dbOneFree).2.payment_history = [] := by
  exact ⟨rfl, rfl, rfl, rfl⟩

/-- C7 amended: for a plan outside `{weekly, lifetime}` (with all fields
present), the Railway variant rejects with 400 `Unknown plan` and issues no
processor call; the `src/server.js` variant performs no plan validation — it
issues exactly one processor call whose price id is undefined and passes the
processor's failure back as a 400. -/
theorem unknown_plan_behavior_by_variant (env : Env) (plan u em msg : String)
    (oracle : Except String String)
    (hw : plan ≠ "weekly") (hl : plan ≠ "lifetime")
    (hp : plan ≠ "") (hu : u ≠ "") (he : em ≠ "") :
    Railway.createCheckoutSession env
        { plan := some plan, userId := some u, email := some em, skipTrial := none } oracle
      = ({ status := 400, body := "Unknown plan" }, []) ∧
    ((ServerJs.createCheckoutSession env
        { plan := some plan, userId := some u, email := some em, skipTrial := none }
        (Except.error msg)).2).length = 1 ∧
    (((ServerJs.createCheckoutSession env
        { plan := some plan, userId := some u, email := some em, skipTrial := none }
        (Except.error msg)).2).getD 0 default).price = none ∧
    (ServerJs.createCheckoutSession env
        { plan := some plan, userId := some u, email := some em, skipTrial := none }
        (Except.error msg)).1.status = 400 := by
  refine ⟨?_, rfl, ?_, rfl⟩
  · simp [Railway.createCheckoutSession, truthyStr, hp, hu, he, prices, hw, hl]
  · show prices env (some plan) = none
    simp [prices, hw, hl]

/-- Witness for the C7 amended theorem at a concrete `monthly` request. -/
theorem unknown_plan_behavior_by_variant_witness :
    Railway.createCheckoutSession envW reqBadPlan (Except.ok "https://cs")
      = ({ status := 400, body := "Unknown plan" }, []) :=
  (unknown_plan_behavior_by_variant envW "monthly" "u1" "a@b.c" "m" (Except.ok "https://cs")
    (by decide) (by decide) (by decide) (by decide) (by decide)).1

/-- C8 amended: in `src/server.js` the single session configuration sent to
the processor carries the 7-day trial exactly when the plan is `weekly` and
`skipTrial` is falsy; in the Railway variant `skipTrial` is ignored — a valid
weekly checkout always attaches the trial, and a lifetime checkout never
does. -/
theorem trial_attachment_characterization (env : Env) (oracle : Except String String)
    (plan u em : String) (skip : Option Bool)
    (hu : u ≠ "") (he : em ≠ "")
    (hwp : env.weeklyPriceId ≠ "") (hlp : env.lifetimePriceId ≠ "") :
    (((ServerJs.createCheckoutSession env
        { plan := some plan, userId := some u, email := some em, skipTrial := skip }
        oracle).2).getD 0 default).trial_period_days
      = (if plan = "weekly" ∧ skip.getD false = false then some 7 else none) ∧
    (plan = "weekly" →
      (((Railway.createCheckoutSession env
          { plan := some plan, userId := some u, email := some em, skipTrial := skip }
          oracle).2).getD 0 default).trial_period_days = some 7) ∧
    (plan = "lifetime" →
      (((Railway.createCheckoutSession env
          { plan := some plan, userId := some u, email := some em, skipTrial := skip }
          oracle).2).getD 0 default).trial_period_days = none) := by
  refine ⟨?_, ?_, ?_⟩
  · cases oracle with
    | ok url => by_cases hc : plan = "weekly" <;> simp [ServerJs.createCheckoutSession, hc]
    | error msg => by_cases hc : plan = "weekly" <;> simp [ServerJs.createCheckoutSession, hc]
  · intro hpw
    subst hpw
    cases oracle with
    | ok url => simp [Railway.createCheckoutSession, truthyStr, prices, hu, he, hwp]
    | error msg => simp [Railway.createCheckoutSession, truthyStr, prices, hu, he, hwp]
  · intro hpl
    subst hpl
    cases oracle with
    | ok url => simp [Railway.createCheckoutSession, truthyStr, prices, hu, he, hlp]
    | error msg => simp [Railway.createCheckoutSession, truthyStr, prices, hu, he, hlp]

/-- Witness for the C8 amended theorem at a concrete weekly request. -/
theorem trial_attachment_characterization_witness :
    (((Railway.createCheckoutSession envW
        { plan := some "weekly", userId := some "u1", email := some "a@b.c", skipTrial := none }
        (Except.ok "https://cs")).2).getD 0 default).trial_period_days = some 7 :=
  (trial_attachment_characterization envW (Except.ok "https://cs") "weekly" "u1" "a@b.c" none
    (by decide) (by decide) (by decide) (by decide)).2.1 rfl

/-- `.eq` with an absent needle matches nothing. -/
theorem eqSub_none_right (v : Option String) : eqSub v none = false := by
  cases v <;> simp [eqSub]

/-- Single-step preservation of the strengthened lifetime invariant under a
well-formed event. -/
theorem step_preserves_lifetime_inv (e : StripeEvent) (now : Nat) (db : Store)
    (hwf : WfEvent e db) (hinv : StoreInv db) : StoreInv (step e now db) := by
  cases e with
  | checkoutCompleted s =>
      cases hmeta : s.metadata with
      | none =>
          have hstep : step (StripeEvent.checkoutCompleted s) now db = db := by
            show (ServerJs.handleCheckoutComplete true now s db).getD db = db
            unfold ServerJs.handleCheckoutComplete
            rw [hmeta]
            rfl
          rw [hstep]
          exact hinv
      | some m =>
          have hstep : step (StripeEvent.checkoutCompleted s) now db
              = { profiles := db.profiles.map (ServerJs.checkoutProfileUpdate now s m)
                  payment_history := db.payment_history
                    ++ [ServerJs.checkoutPaymentRow s m] } := by
            show (ServerJs.handleCheckoutComplete true now s db).getD db = _
            unfold ServerJs.handleCheckoutComplete
            rw [hmeta]
            rfl
          rw [hstep]
          intro p hp
          simp only [List.mem_map] at hp
          obtain ⟨q, hq, rfl⟩ := hp
          by_cases h : q.id = m.userId
          · by_cases hplan : m.plan = "lifetime"
            · obtain ⟨hsub, htarget⟩ := hwf m hmeta hplan
              have hqsub : q.stripe_subscription_id = none := htarget q hq h
              intro _
              constructor
              · left
                show (ServerJs.checkoutProfileUpdate now s m q).subscription_status = "active"
                unfold ServerJs.checkoutProfileUpdate
                rw [if_pos h, hsub]
                simp
              · show (ServerJs.checkoutProfileUpdate now s m q).stripe_subscription_id = none
                unfold ServerJs.checkoutProfileUpdate
                rw [if_pos h, hsub]
                simpa using hqsub
            · intro htier
              exfalso
              apply hplan
              have htq : (ServerJs.checkoutProfileUpdate now s m q).subscription_tier
                  = m.plan := by
                unfold ServerJs.checkoutProfileUpdate
                rw [if_pos h]
                cases s.subscription <;> rfl
              exact htq.symm.trans htier
          · have hrq : ServerJs.checkoutProfileUpdate now s m q = q := by
              unfold ServerJs.checkoutProfileUpdate
              rw [if_neg h]
            rw [hrq]
            exact hinv q hq
  | subscriptionUpdated su =>
      have hstep : step (StripeEvent.subscriptionUpdated su) now db
          = { db with profiles := db.profiles.map (ServerJs.subscriptionUpdateRow now su) } :=
        rfl
      rw [hstep]
      intro p hp
      simp only [List.mem_map] at hp
      obtain ⟨q, hq, rfl⟩ := hp
      by_cases h : q.stripe_subscription_id = some su.id
      · intro htier
        have htq : (ServerJs.subscriptionUpdateRow now su q).subscription_tier
            = q.subscription_tier := by
          unfold ServerJs.subscriptionUpdateRow
          rw [if_pos h]
        have hql := htq.symm.trans htier
        have hnone := (hinv q hq hql).2
        rw [hnone] at h
        exact absurd h (by simp)
      · have hrq : ServerJs.subscriptionUpdateRow now su q = q := by
          unfold ServerJs.subscriptionUpdateRow
          rw [if_neg h]
        rw [hrq]
        exact hinv q hq
  | subscriptionDeleted su =>
      have hstep : step (StripeEvent.subscriptionDeleted su) now db
          = { db with profiles := db.profiles.map (ServerJs.subscriptionDeletedRow now su) } :=
        rfl
      rw [hstep]
      intro p hp
      simp only [List.mem_map] at hp
      obtain ⟨q, hq, rfl⟩ := hp
      by_cases h : q.stripe_subscription_id = some su.id
      · intro htier
        have htq : (ServerJs.subscriptionDeletedRow now su q).subscription_tier = "free" := by
          unfold ServerJs.subscriptionDeletedRow
          rw [if_pos h]
        rw [htq] at htier
        exact absurd htier (by decide)
      · have hrq : ServerJs.subscriptionDeletedRow now su q = q := by
          unfold ServerJs.subscriptionDeletedRow
          rw [if_neg h]
        rw [hrq]
        exact hinv q hq
  | invoicePaymentSucceeded i =>
      by_cases hg : truthyStr i.subscription = false
      · have hstep : step (StripeEvent.invoicePaymentSucceeded i) now db = db := by
          show (ServerJs.handlePaymentSucceeded true now i db).getD db = db
          unfold ServerJs.handlePaymentSucceeded
          rw [if_pos hg]
          rfl
        rw [hstep]
        exact hinv
      · have hstep : step (StripeEvent.invoicePaymentSucceeded i) now db
            = { db with profiles := db.profiles.map (ServerJs.paymentSucceededRow now i) } := by
          show (ServerJs.handlePaymentSucceeded true now i db).getD db = _
          unfold ServerJs.handlePaymentSucceeded
          rw [if_neg hg]
          rfl
        rw [hstep]
        intro p hp
        simp only [List.mem_map] at hp
        obtain ⟨q, hq, rfl⟩ := hp
        by_cases h : eqSub i.subscription q.stripe_subscription_id = true
        · intro htier
          have htq : (ServerJs.paymentSucceededRow now i q).subscription_tier
              = q.subscription_tier := by
            unfold ServerJs.paymentSucceededRow
            rw [if_pos h]
          have hql := htq.symm.trans htier
          have hnone := (hinv q hq hql).2
          rw [hnone, eqSub_none_right] at h
          exact absurd h (by simp)
        · have hrq : ServerJs.paymentSucceededRow now i q = q := by
            unfold ServerJs.paymentSucceededRow
            rw [if_neg h]
          rw [hrq]
          exact hinv q hq
  | invoicePaymentFailed i =>
      have hstep : step (StripeEvent.invoicePaymentFailed i) now db
          = { db with profiles := db.profiles.map (ServerJs.paymentFailedRow i) } := rfl
      rw [hstep]
      intro p hp
      simp only [List.mem_map] at hp
      obtain ⟨q, hq, rfl⟩ := hp
      by_cases h : eqSub i.subscription q.stripe_subscription_id = true
      · intro htier
        have htq : (ServerJs.paymentFailedRow i q).subscription_tier
            = q.subscription_tier := by
          unfold ServerJs.paymentFailedRow
          rw [if_pos h]
        have hql := htq.symm.trans htier
        have hnone := (hinv q hq hql).2
        rw [hnone, eqSub_none_right] at h
        exact absurd h (by simp)
      · have hrq : ServerJs.paymentFailedRow i q = q := by
          unfold ServerJs.paymentFailedRow
          rw [if_neg h]
        rw [hrq]
        exact hinv q hq
  | other ty =>
      exact hinv

/-- C10 amended: the invariant as stated is not inductive on its own (see the
C10 counterexample); the strengthened invariant — `tier = lifetime` implies
`status ∈ {active, canceled}` and no stored subscription id — is preserved by
every sequence of reconciler steps whose completed-checkout events, when their
metadata says `lifetime`, carry no subscription id and target rows storing no
subscription id (exactly what sessions created by the checkout initiator
produce, since lifetime sessions use one-time payment mode). -/
theorem lifetime_invariant_preserved_wf (seq : List (StripeEvent × Nat)) (db : Store)
    (hwf : WfTrace seq db) (hinv : StoreInv db) : StoreInv (run seq db) := by
  induction seq generalizing db with
  | nil => exact hinv
  | cons et rest ih =>
      obtain ⟨e, t⟩ := et
      exact ih (step e t db) hwf.2 (step_preserves_lifetime_inv e t db hwf.1 hinv)

/-- Witness for the C10 amended theorem on a concrete one-event trace. -/
theorem lifetime_invariant_preserved_wf_witness :
    StoreInv (run [(StripeEvent.invoicePaymentFailed invFail1, 3)] dbOneFree) :=
  lifetime_invariant_preserved_wf [(StripeEvent.invoicePaymentFailed invFail1, 3)] dbOneFree
    ⟨trivial, trivial⟩ (by decide)
